import Mathlib

/-!
Verification of the xi-editor plugin-lib global dispatcher
(src/rust/plugin-lib/src/global/mod.rs).

The dispatcher owns a registry mapping view identifiers to views, an
optional plugin pid, and a generic plugin instance.  It routes inbound
RPC notifications and requests to the plugin hooks.  We embed the
dispatcher shallowly: the Rust `HashMap` becomes an association list
with overwrite-on-insert semantics; `eprintln!` diagnostics become an
explicit output list; `assert!` and `Option::unwrap` panics become an
explicit `Outcome` failure; the generic plugin (`P: Plugin`) becomes a
record of hook functions over an abstract plugin state type `S`, and
the generic cache (`P::Cache`) an abstract type `C` with an update
operation.
-/

/-- Opaque identifier of one open document view (xi_core ViewIdentifier). -/
abbrev ViewIdentifier := Nat

/-- Opaque identifier of this plugin instance (xi_core PluginPid). -/
abbrev PluginPid := Nat

/-- Filesystem path (std PathBuf), opaque to the dispatcher. -/
abbrev FsPath := String

/-- Outbound peer handle obtained from the RPC context, opaque here. -/
abbrev Peer := Nat

/-- Structured RPC error (xi_rpc RemoteError), as built by RemoteError::custom:
a numeric code and a message (the optional params are always None here). -/
structure RemoteError where
  code : Int
  message : String
  deriving Repr, DecidableEq

/-- Mirrors RemoteError::custom(code, message, None). -/
def RemoteError.custom (code : Int) (message : String) : RemoteError :=
  ⟨code, message⟩

/-- One missing-view diagnostic line, as printed by the bail!/bail_err!
macros: eprintln!("\x7b:?\x7d missing \x7b:?\x7d for \x7b:?\x7d", pid, view, method). -/
structure Diag where
  pid : Option PluginPid
  view : ViewIdentifier
  method : String
  deriving Repr, DecidableEq

/-- Result of handling one message: normal completion, or a Rust panic
(from assert! or Option::unwrap). -/
inductive Outcome (α : Type) where
  | ok : α → Outcome α
  | panic : String → Outcome α
  deriving Repr, DecidableEq

/-- Returns true when the outcome is a normal completion. -/
def Outcome.isOk {α : Type} : Outcome α → Bool
  | .ok _ => true
  | .panic _ => false

/-- Modelled from the spec: PluginBufferInfo (defined in xi_core plugin_rpc,
not under src/) is the descriptor supplied at view-creation time; the spec
says it carries the view identifier, initial path and initial configuration,
and is otherwise opaque to the dispatcher beyond what View::new needs. -/
structure PluginBufferInfo where
  view_id : ViewIdentifier
  path : Option FsPath
  deriving Repr, DecidableEq

/-- Update request payload (xi_core plugin_rpc PluginUpdate), destructured
by do_update: view id, optional delta, resulting length, resulting line
count, revision, plus edit-type and author tags. -/
structure PluginUpdate (D : Type) where
  view_id : ViewIdentifier
  delta : Option D
  new_len : Nat
  new_line_count : Nat
  rev : Nat
  edit_type : String
  author : String
  deriving Repr

/-- Modelled from the spec: the Cache contract (global/view.rs is not under
src/).  A cache is built from the buffer info at view creation, and exposes
one mutating operation consuming (delta-or-none, new_len, new_line_count,
revision). -/
structure CacheImpl (C D : Type) where
  init : PluginBufferInfo → C
  update : C → Option D → Nat → Nat → Nat → C

/-- Modelled from the spec: the View entity (global/view.rs is not under
src/): identity, optional path, peer handle, plugin pid and the owned cache.
The identity is immutable for the lifetime of the view. -/
structure View (C : Type) where
  view_id : ViewIdentifier
  path : Option FsPath
  plugin_id : PluginPid
  peer : Peer
  cache : C
  deriving Repr

/-- Modelled from the spec: View::new(peer, plugin_id, info) builds a view
from a buffer info, taking identity and initial path from the info and
building the initial cache state from it. -/
def View.new {C D : Type} (cacheI : CacheImpl C D) (peer : Peer)
    (plugin_id : PluginPid) (info : PluginBufferInfo) : View C :=
  ⟨info.view_id, info.path, plugin_id, peer, cacheI.init info⟩

/-- Modelled from the spec: the capability interface (the Plugin trait of
global/view.rs, not under src/).  One function per hook, threading an
abstract plugin state S; hooks receiving the view by mutable reference
return the possibly mutated view, did_close receives it by shared
reference and returns only the new plugin state, and update additionally
returns the reply value or structured error. -/
structure Plugin (C D T V S : Type) where
  new_view : S → View C → S × View C
  did_save : S → View C → FsPath → S × View C
  config_changed : S → View C → T → S × View C
  did_close : S → View C → S
  update : S → View C → Option D → S × View C × Except RemoteError V
  idle : S → View C → S × View C

/-- Association-list map modelling std HashMap<ViewIdentifier, View>:
lookup of the first (unique) binding for a key. -/
def mapLookup {α : Type} : List (ViewIdentifier × α) → ViewIdentifier → Option α
  | [], _ => none
  | (k, v) :: rest, k0 => if k = k0 then some v else mapLookup rest k0

/-- Association-list insert with HashMap overwrite semantics: replaces the
binding in place when the key is present, appends otherwise. -/
def mapInsert {α : Type} : List (ViewIdentifier × α) → ViewIdentifier → α →
    List (ViewIdentifier × α)
  | [], k0, v0 => [(k0, v0)]
  | (k, v) :: rest, k0, v0 =>
      if k = k0 then (k0, v0) :: rest else (k, v) :: mapInsert rest k0 v0

/-- Association-list removal of the (unique) binding for a key, modelling
HashMap::remove. -/
def mapErase {α : Type} : List (ViewIdentifier × α) → ViewIdentifier →
    List (ViewIdentifier × α)
  | [], _ => []
  | (k, v) :: rest, k0 => if k = k0 then rest else (k, v) :: mapErase rest k0

/-- The RPC context supplied by the mainloop per message; the dispatcher
only uses its peer handle (ctx.get_peer()). -/
structure RpcCtx where
  peer : Peer
  deriving Repr

/-- Dispatcher state: the view registry, the optional pid, and the plugin
state (the generic P instance). -/
structure Dispatcher (C S : Type) where
  views : List (ViewIdentifier × View C)
  pid : Option PluginPid
  plugin : S

/-- Dispatcher::new: empty registry, no pid, the supplied plugin. -/
def Dispatcher.new {C S : Type} (plugin : S) : Dispatcher C S :=
  ⟨[], none, plugin⟩

variable {C D T V S : Type}

/-- Loop body of do_new_buffer, for one buffer info: constructs a View
from the peer handle, pid and info, invokes the new_view hook on it, and
inserts it into the registry keyed by its identifier. -/
def newBufferBody (cacheI : CacheImpl C D) (pl : Plugin C D T V S)
    (ctx : RpcCtx) (plugin_id : PluginPid)
    (acc : Dispatcher C S) (info : PluginBufferInfo) : Dispatcher C S :=
  let view := View.new cacheI ctx.peer plugin_id info
  let r := pl.new_view acc.plugin view
  { acc with plugin := r.1, views := mapInsert acc.views r.2.view_id r.2 }

/-- Mirrors do_new_buffer: unwraps the pid (panicking when unset), then
runs the construct-hook-insert body over the buffer infos in order. -/
def do_new_buffer (cacheI : CacheImpl C D) (pl : Plugin C D T V S)
    (d : Dispatcher C S) (ctx : RpcCtx) (buffers : List PluginBufferInfo) :
    Outcome (Dispatcher C S × List Diag) :=
  match d.pid with
  | none => .panic "called Option::unwrap on a None value"
  | some plugin_id =>
      .ok (buffers.foldl (newBufferBody cacheI pl ctx plugin_id) d, [])

/-- Mirrors do_initialize: asserts the pid is unset (panicking otherwise),
records the plugin id, then performs do_new_buffer on the buffer infos. -/
def do_initialize (cacheI : CacheImpl C D) (pl : Plugin C D T V S)
    (d : Dispatcher C S) (ctx : RpcCtx) (plugin_id : PluginPid)
    (buffers : List PluginBufferInfo) :
    Outcome (Dispatcher C S × List Diag) :=
  match d.pid with
  | some _ => .panic "initialize rpc received with existing pid"
  | none => do_new_buffer cacheI pl { d with pid := some plugin_id } ctx buffers

/-- Mirrors do_did_save: looks up the view (bail! prints a diagnostic and
returns when absent), invokes the did_save hook with the view and path,
then sets the path field of the view. -/
def do_did_save (pl : Plugin C D T V S) (d : Dispatcher C S)
    (view_id : ViewIdentifier) (path : FsPath) : Dispatcher C S × List Diag :=
  match mapLookup d.views view_id with
  | none => (d, [⟨d.pid, view_id, "did_save"⟩])
  | some v =>
      let r := pl.did_save d.plugin v path
      ({ d with plugin := r.1,
                views := mapInsert d.views view_id { r.2 with path := some path } },
       [])

/-- Mirrors do_config_changed: looks up the view (bail! when absent) and
invokes the config_changed hook. -/
def do_config_changed (pl : Plugin C D T V S) (d : Dispatcher C S)
    (view_id : ViewIdentifier) (changes : T) : Dispatcher C S × List Diag :=
  match mapLookup d.views view_id with
  | none => (d, [⟨d.pid, view_id, "config_changed"⟩])
  | some v =>
      let r := pl.config_changed d.plugin v changes
      ({ d with plugin := r.1, views := mapInsert d.views view_id r.2 }, [])

/-- Mirrors do_close: looks up the view (bail! when absent), invokes the
did_close hook on the still-registered view, then removes the view from
the registry. -/
def do_close (pl : Plugin C D T V S) (d : Dispatcher C S)
    (view_id : ViewIdentifier) : Dispatcher C S × List Diag :=
  match mapLookup d.views view_id with
  | none => (d, [⟨d.pid, view_id, "close"⟩])
  | some v =>
      ({ d with plugin := pl.did_close d.plugin v,
                views := mapErase d.views view_id }, [])

/-- Mirrors do_update: destructures the PluginUpdate, looks up the view
(bail_err! returns RemoteError::custom(404, "missing view", None) when
absent), applies cache.update with the delta, new_len, new_line_count and
rev, then invokes the update hook with the same delta and returns its
result. -/
def do_update (cacheI : CacheImpl C D) (pl : Plugin C D T V S)
    (d : Dispatcher C S) (u : PluginUpdate D) :
    Dispatcher C S × List Diag × Except RemoteError V :=
  match mapLookup d.views u.view_id with
  | none =>
      (d, [⟨d.pid, u.view_id, "update"⟩],
       .error (RemoteError.custom 404 "missing view"))
  | some v =>
      let v1 := { v with
        cache := cacheI.update v.cache u.delta u.new_len u.new_line_count u.rev }
      let r := pl.update d.plugin v1 u.delta
      ({ d with plugin := r.1, views := mapInsert d.views u.view_id r.2.1 },
       [], r.2.2)

/-- Mirrors do_shutdown: a no-op placeholder. -/
def do_shutdown (d : Dispatcher C S) : Dispatcher C S × List Diag :=
  (d, [])

/-- Mirrors do_tracing_config: toggles the process-wide tracing state,
which is outside the dispatcher; on the dispatcher it is a no-op (it
prints an enable/disable line, which is not a missing-view diagnostic). -/
def do_tracing_config (d : Dispatcher C S) (_enabled : Bool) :
    Dispatcher C S × List Diag :=
  (d, [])

/-- Inbound notification taxonomy (xi_core plugin_rpc HostNotification). -/
inductive HostNotification (T : Type) where
  | Initialize (plugin_id : PluginPid) (buffer_info : List PluginBufferInfo)
  | DidSave (view_id : ViewIdentifier) (path : FsPath)
  | ConfigChanged (view_id : ViewIdentifier) (changes : T)
  | NewBuffer (buffer_info : List PluginBufferInfo)
  | DidClose (view_id : ViewIdentifier)
  | Shutdown
  | TracingConfig (enabled : Bool)
  | Ping

/-- Inbound request taxonomy (xi_core plugin_rpc HostRequest). -/
inductive HostRequest (D : Type) where
  | Update (params : PluginUpdate D)
  | CollectTrace

/-- Mirrors Handler::handle_notification: routes each notification kind to
its do_* method. -/
def handle_notification (cacheI : CacheImpl C D) (pl : Plugin C D T V S)
    (d : Dispatcher C S) (ctx : RpcCtx) (rpc : HostNotification T) :
    Outcome (Dispatcher C S × List Diag) :=
  match rpc with
  | .Initialize plugin_id buffer_info =>
      do_initialize cacheI pl d ctx plugin_id buffer_info
  | .DidSave view_id path => .ok (do_did_save pl d view_id path)
  | .ConfigChanged view_id changes => .ok (do_config_changed pl d view_id changes)
  | .NewBuffer buffer_info => do_new_buffer cacheI pl d ctx buffer_info
  | .DidClose view_id => .ok (do_close pl d view_id)
  | .Shutdown => .ok (do_shutdown d)
  | .TracingConfig enabled => .ok (do_tracing_config d enabled)
  | .Ping => .ok (d, [])

/-- Mirrors Handler::handle_request: Update goes to do_update;
CollectTrace always answers RemoteError::custom(100, "method not
supported", None). -/
def handle_request (cacheI : CacheImpl C D) (pl : Plugin C D T V S)
    (d : Dispatcher C S) (rpc : HostRequest D) :
    Dispatcher C S × List Diag × Except RemoteError V :=
  match rpc with
  | .Update params => do_update cacheI pl d params
  | .CollectTrace =>
      (d, [], .error (RemoteError.custom 100 "method not supported"))

/-- Mirrors Handler::idle: the token converts into a view identifier, the
view is looked up (bail! when absent) and the idle hook is invoked. -/
def handle_idle (pl : Plugin C D T V S) (d : Dispatcher C S) (token : Nat) :
    Dispatcher C S × List Diag :=
  let view_id : ViewIdentifier := token
  match mapLookup d.views view_id with
  | none => (d, [⟨d.pid, view_id, "idle"⟩])
  | some v =>
      let r := pl.idle d.plugin v
      ({ d with plugin := r.1, views := mapInsert d.views view_id r.2 }, [])

/-- One inbound message as delivered by the mainloop: a notification, a
request, or an idle callback. -/
inductive Msg (D T : Type) where
  | notif (n : HostNotification T)
  | req (r : HostRequest D)
  | idle (token : Nat)

/-- One dispatch step on an arbitrary message, discarding the reply of a
request (returned to the transport, not kept in dispatcher state). -/
def stepMsg (cacheI : CacheImpl C D) (pl : Plugin C D T V S)
    (ctx : RpcCtx) (d : Dispatcher C S) (m : Msg D T) :
    Outcome (Dispatcher C S × List Diag) :=
  match m with
  | .notif n => handle_notification cacheI pl d ctx n
  | .req r =>
      let x := handle_request cacheI pl d r
      .ok (x.1, x.2.1)
  | .idle token => .ok (handle_idle pl d token)

/-- Runs a sequence of messages from a state, stopping at the first panic. -/
def runMsgs (cacheI : CacheImpl C D) (pl : Plugin C D T V S) (ctx : RpcCtx) :
    Dispatcher C S → List (Msg D T) → Outcome (Dispatcher C S)
  | d, [] => .ok d
  | d, m :: rest =>
      match stepMsg cacheI pl ctx d m with
      | .panic s => .panic s
      | .ok x => runMsgs cacheI pl ctx x.1 rest

/-- Concrete cache for exercising the dispatcher: remembers the latest
(length, line count, revision) triple given to update. -/
def testCache : CacheImpl (Nat × Nat × Nat) Nat :=
  ⟨fun _info => (0, 0, 0), fun _c _delta l nl r => (l, nl, r)⟩

/-- Concrete plugin for exercising the dispatcher: its state is the list
of hook names invoked so far, and its update hook replies with the delta. -/
def testPlugin : Plugin (Nat × Nat × Nat) Nat Nat Nat (List String) where
  new_view := fun s v => (s ++ ["new_view"], v)
  did_save := fun s v _p => (s ++ ["did_save"], v)
  config_changed := fun s v _c => (s ++ ["config_changed"], v)
  did_close := fun s _v => s ++ ["did_close"]
  update := fun s v delta => (s ++ ["update"], v, Except.ok (delta.getD 0))
  idle := fun s v => (s ++ ["idle"], v)

/-- Sample buffer info with identifier 1. -/
def testInfo1 : PluginBufferInfo := ⟨1, none⟩

/-- Sample buffer info with identifier 2. -/
def testInfo2 : PluginBufferInfo := ⟨2, some "b.txt"⟩

/-- Sample registered view with identifier 1 under pid 7. -/
def testView1 : View (Nat × Nat × Nat) := ⟨1, none, 7, 0, (0, 0, 0)⟩

/-- Sample dispatcher holding testView1 under pid 7. -/
def testDisp : Dispatcher (Nat × Nat × Nat) (List String) :=
  ⟨[(1, testView1)], some 7, []⟩

/-- Sample RPC context. -/
def testCtx : RpcCtx := ⟨0⟩

/-- Sample update request for view 1: len 42, 3 lines, revision 7. -/
def testUpdate1 : PluginUpdate Nat := ⟨1, some 5, 42, 3, 7, "insert", "user"⟩

/-- Sample update request addressing the unregistered view 9. -/
def testUpdate9 : PluginUpdate Nat := ⟨9, none, 0, 0, 0, "", ""⟩

/-- Dispatcher invariant relating the registry to the pid: views exist
only after a pid has been recorded. -/
def DispInv (d : Dispatcher C S) : Prop :=
  d.views ≠ [] → d.pid.isSome = true

/-- The dispatcher state reached from a fresh dispatcher by one
Initialize message carrying testInfo1, written out literally. -/
def dWitness : Dispatcher (Nat × Nat × Nat) (List String) :=
  ⟨[(1, ⟨1, none, 7, 0, (0, 0, 0)⟩)], some 7, ["new_view"]⟩

/-- Looking up the key just inserted yields the inserted value. -/
theorem mapLookup_mapInsert_self {α : Type} (l : List (ViewIdentifier × α))
    (k : ViewIdentifier) (v : α) : mapLookup (mapInsert l k v) k = some v := by
  induction l with
  | nil => simp [mapInsert, mapLookup]
  | cons hd tl ih =>
      obtain ⟨k1, v1⟩ := hd
      by_cases h : k1 = k <;> simp [mapInsert, mapLookup, h, ih]

/-- Insertion does not change the lookup of any other key. -/
theorem mapLookup_mapInsert_ne {α : Type} (l : List (ViewIdentifier × α))
    (k k0 : ViewIdentifier) (v : α) (hne : k ≠ k0) :
    mapLookup (mapInsert l k v) k0 = mapLookup l k0 := by
  induction l with
  | nil => simp [mapInsert, mapLookup, hne]
  | cons hd tl ih =>
      obtain ⟨k1, v1⟩ := hd
      by_cases h : k1 = k
      · subst h
        simp [mapInsert, mapLookup, hne]
      · simp [mapInsert, mapLookup, h, ih]

/-- Lookup succeeds exactly on the keys of the list. -/
theorem mapLookup_isSome_iff_mem {α : Type} (l : List (ViewIdentifier × α))
    (k : ViewIdentifier) :
    (mapLookup l k).isSome = true ↔ k ∈ l.map Prod.fst := by
  induction l with
  | nil => simp [mapLookup]
  | cons hd tl ih =>
      obtain ⟨k1, v1⟩ := hd
      simp only [mapLookup, List.map_cons, List.mem_cons]
      by_cases h : k1 = k
      · simp [h]
      · simp only [h, if_false, ih]
        constructor
        · exact fun hm => Or.inr hm
        · rintro (h1 | h1)
          · exact absurd h1.symm h
          · exact h1

/-- A key absent from the list looks up to none. -/
theorem mapLookup_eq_none_of_not_mem {α : Type} (l : List (ViewIdentifier × α))
    (k : ViewIdentifier) (h : k ∉ l.map Prod.fst) : mapLookup l k = none := by
  cases hl : mapLookup l k with
  | none => rfl
  | some v =>
      exact absurd ((mapLookup_isSome_iff_mem l k).1 (by simp [hl])) h

/-- The keys after insertion are the inserted key and the prior keys. -/
theorem mem_keys_mapInsert {α : Type} (l : List (ViewIdentifier × α))
    (k k0 : ViewIdentifier) (v : α) :
    k0 ∈ (mapInsert l k v).map Prod.fst ↔ k0 = k ∨ k0 ∈ l.map Prod.fst := by
  induction l with
  | nil => simp [mapInsert]
  | cons hd tl ih =>
      obtain ⟨k1, v1⟩ := hd
      by_cases h : k1 = k
      · subst h
        have he : mapInsert ((k1, v1) :: tl) k1 v = (k1, v) :: tl := by
          simp [mapInsert]
        rw [he]
        simp only [List.map_cons, List.mem_cons]
        tauto
      · have he : mapInsert ((k1, v1) :: tl) k v = (k1, v1) :: mapInsert tl k v := by
          simp [mapInsert, h]
        rw [he]
        simp only [List.map_cons, List.mem_cons, ih]
        tauto

/-- Insertion preserves distinctness of the keys. -/
theorem nodup_keys_mapInsert {α : Type} (l : List (ViewIdentifier × α))
    (k : ViewIdentifier) (v : α) (h : (l.map Prod.fst).Nodup) :
    ((mapInsert l k v).map Prod.fst).Nodup := by
  induction l with
  | nil => simp [mapInsert]
  | cons hd tl ih =>
      obtain ⟨k1, v1⟩ := hd
      simp only [List.map_cons, List.nodup_cons] at h
      by_cases hk : k1 = k
      · subst hk
        simpa [mapInsert] using h
      · simp only [mapInsert, hk, if_false, List.map_cons, List.nodup_cons]
        refine ⟨fun hmem => ?_, ih h.2⟩
        rcases (mem_keys_mapInsert tl k k1 v).1 hmem with h1 | h1
        · exact hk h1
        · exact h.1 h1

/-- Erasing one key does not change the lookup of any other key. -/
theorem mapLookup_mapErase_ne {α : Type} (l : List (ViewIdentifier × α))
    (k k0 : ViewIdentifier) (hne : k ≠ k0) :
    mapLookup (mapErase l k) k0 = mapLookup l k0 := by
  induction l with
  | nil => simp [mapErase]
  | cons hd tl ih =>
      obtain ⟨k1, v1⟩ := hd
      by_cases h : k1 = k
      · subst h
        simp [mapErase, mapLookup, hne]
      · simp [mapErase, mapLookup, h, ih]

/-- On a registry with distinct keys, the erased key looks up to none. -/
theorem mapLookup_mapErase_self {α : Type} (l : List (ViewIdentifier × α))
    (k : ViewIdentifier) (h : (l.map Prod.fst).Nodup) :
    mapLookup (mapErase l k) k = none := by
  induction l with
  | nil => simp [mapErase, mapLookup]
  | cons hd tl ih =>
      obtain ⟨k1, v1⟩ := hd
      simp only [List.map_cons, List.nodup_cons] at h
      by_cases hk : k1 = k
      · subst hk
        simp only [mapErase, if_pos rfl]
        exact mapLookup_eq_none_of_not_mem tl k1 h.1
      · simp [mapErase, mapLookup, hk, ih h.2]

/-- C1: for an Update request whose view is registered, the dispatcher
applies cache.update with exactly the delta, new_len, new_line_count and
rev of the message, then invokes the plugin update hook on that view with
the same delta; the reply equals the return value of the hook, errors
passed through unchanged, and the updated view is stored back at its key. -/
theorem update_present_applies_cache_then_hook
    (cacheI : CacheImpl C D) (pl : Plugin C D T V S)
    (d : Dispatcher C S) (u : PluginUpdate D) (v : View C)
    (h : mapLookup d.views u.view_id = some v) :
    handle_request cacheI pl d (HostRequest.Update u) =
      (let v1 : View C := { v with
         cache := cacheI.update v.cache u.delta u.new_len u.new_line_count u.rev }
       let r := pl.update d.plugin v1 u.delta
       ({ views := mapInsert d.views u.view_id r.2.1,
          pid := d.pid, plugin := r.1 }, [], r.2.2)) := by
  simp [handle_request, do_update, h]

/-- Witness for C1 at a concrete registered view and update request. -/
theorem update_present_applies_cache_then_hook_witness :
    mapLookup testDisp.views testUpdate1.view_id = some testView1 ∧
    handle_request testCache testPlugin testDisp (HostRequest.Update testUpdate1) =
      (let v1 : View (Nat × Nat × Nat) := { testView1 with
         cache := testCache.update testView1.cache testUpdate1.delta
           testUpdate1.new_len testUpdate1.new_line_count testUpdate1.rev }
       let r := testPlugin.update testDisp.plugin v1 testUpdate1.delta
       ({ views := mapInsert testDisp.views testUpdate1.view_id r.2.1,
          pid := testDisp.pid, plugin := r.1 }, [], r.2.2)) :=
  ⟨rfl,
   update_present_applies_cache_then_hook testCache testPlugin testDisp
     testUpdate1 testView1 rfl⟩

/-- C2: for an Update request whose view is not registered, the dispatcher
answers the structured error with fixed code 404 and message "missing
view", emits the missing-view diagnostic, invokes no plugin hook and no
cache operation, and the whole dispatcher state is unchanged. -/
theorem update_missing_view_error
    (cacheI : CacheImpl C D) (pl : Plugin C D T V S)
    (d : Dispatcher C S) (u : PluginUpdate D)
    (h : mapLookup d.views u.view_id = none) :
    handle_request cacheI pl d (HostRequest.Update u) =
      (d, [⟨d.pid, u.view_id, "update"⟩],
       Except.error (RemoteError.custom 404 "missing view")) := by
  simp [handle_request, do_update, h]

/-- Witness for C2 on a dispatcher not holding view 9. -/
theorem update_missing_view_error_witness :
    mapLookup testDisp.views testUpdate9.view_id = none ∧
    handle_request testCache testPlugin testDisp (HostRequest.Update testUpdate9) =
      (testDisp, [⟨testDisp.pid, testUpdate9.view_id, "update"⟩],
       Except.error (RemoteError.custom 404 "missing view")) :=
  ⟨rfl,
   update_missing_view_error testCache testPlugin testDisp testUpdate9 rfl⟩

/-- C7: a CollectTrace request always answers the structured error with
code 100 and message "method not supported", touches neither the
dispatcher state nor the plugin, emits no diagnostic, and its code
differs from the 404 code of the missing-view error of Update. -/
theorem collect_trace_not_supported
    (cacheI : CacheImpl C D) (pl : Plugin C D T V S) (d : Dispatcher C S) :
    handle_request (V := V) cacheI pl d HostRequest.CollectTrace =
      (d, [], Except.error (RemoteError.custom 100 "method not supported")) ∧
    (RemoteError.custom 100 "method not supported").code ≠
      (RemoteError.custom 404 "missing view").code := by
  constructor
  · rfl
  · decide

/-- The new-buffer loop never touches the pid of the dispatcher. -/
theorem pid_foldl_newBufferBody (cacheI : CacheImpl C D) (pl : Plugin C D T V S)
    (ctx : RpcCtx) (p : PluginPid) :
    ∀ (bs : List PluginBufferInfo) (d : Dispatcher C S),
      (bs.foldl (newBufferBody cacheI pl ctx p) d).pid = d.pid
  | [], _ => rfl
  | b :: bs, d => by
      rw [List.foldl_cons, pid_foldl_newBufferBody cacheI pl ctx p bs]
      rfl

/-- C4: handling Initialize with the pid unset records the supplied
plugin id and then performs the NewBuffer processing on the supplied
buffer infos, the resulting pid being the recorded one; handling
Initialize with the pid already set panics (assertion failure), so at
most one Initialize succeeds per dispatcher lifetime. -/
theorem initialize_sets_pid_then_new_buffer
    (cacheI : CacheImpl C D) (pl : Plugin C D T V S) (ctx : RpcCtx)
    (d : Dispatcher C S) (p : PluginPid) (bs : List PluginBufferInfo) :
    (d.pid = none →
       handle_notification cacheI pl d ctx (HostNotification.Initialize p bs) =
         Outcome.ok
           (bs.foldl (newBufferBody cacheI pl ctx p) { d with pid := some p }, []) ∧
       (bs.foldl (newBufferBody cacheI pl ctx p) { d with pid := some p }).pid =
         some p) ∧
    (∀ q, d.pid = some q →
       handle_notification cacheI pl d ctx (HostNotification.Initialize p bs) =
         Outcome.panic "initialize rpc received with existing pid") := by
  constructor
  · intro h
    refine ⟨?_, ?_⟩
    · simp [handle_notification, do_initialize, do_new_buffer, h]
    · rw [pid_foldl_newBufferBody]
  · intro q h
    simp [handle_notification, do_initialize, h]

/-- Witness for C4: a fresh dispatcher accepts Initialize with two buffer
infos, and a dispatcher whose pid is set panics on a second Initialize. -/
theorem initialize_sets_pid_then_new_buffer_witness :
    ((Dispatcher.new ([] : List String) : Dispatcher (Nat × Nat × Nat) (List String)).pid
       = none ∧ testDisp.pid = some 7) ∧
    (handle_notification testCache testPlugin (Dispatcher.new []) testCtx
       (HostNotification.Initialize 7 [testInfo1, testInfo2]) =
         Outcome.ok
           ([testInfo1, testInfo2].foldl (newBufferBody testCache testPlugin testCtx 7)
              { Dispatcher.new ([] : List String) with pid := some 7 }, []) ∧
     ([testInfo1, testInfo2].foldl (newBufferBody testCache testPlugin testCtx 7)
        { Dispatcher.new ([] : List String) with pid := some 7 }).pid = some 7) ∧
    handle_notification testCache testPlugin testDisp testCtx
      (HostNotification.Initialize 9 []) =
      Outcome.panic "initialize rpc received with existing pid" :=
  ⟨⟨rfl, rfl⟩,
   (initialize_sets_pid_then_new_buffer testCache testPlugin testCtx
      (Dispatcher.new []) 7 [testInfo1, testInfo2]).1 rfl,
   (initialize_sets_pid_then_new_buffer testCache testPlugin testCtx
      testDisp 9 []).2 7 rfl⟩

/-- C9: handling NewBuffer while the pid is unset panics (the unwrap of
the optional pid), rather than producing a diagnostic or an error; with
the pid set this panic branch is unreachable and handling completes
normally. -/
theorem new_buffer_without_pid_panics
    (cacheI : CacheImpl C D) (pl : Plugin C D T V S) (ctx : RpcCtx)
    (d : Dispatcher C S) (bs : List PluginBufferInfo) :
    (d.pid = none →
       handle_notification cacheI pl d ctx (HostNotification.NewBuffer bs) =
         Outcome.panic "called Option::unwrap on a None value") ∧
    (d.pid.isSome = true →
       (handle_notification cacheI pl d ctx (HostNotification.NewBuffer bs)).isOk
         = true) := by
  constructor
  · intro h
    simp [handle_notification, do_new_buffer, h]
  · intro h
    cases hp : d.pid with
    | none => rw [hp] at h; cases h
    | some p => simp [handle_notification, do_new_buffer, hp, Outcome.isOk]

/-- Witness for C9: a fresh dispatcher panics on NewBuffer, testDisp
handles it normally. -/
theorem new_buffer_without_pid_panics_witness :
    (handle_notification testCache testPlugin (Dispatcher.new []) testCtx
       (HostNotification.NewBuffer [testInfo1]) =
       Outcome.panic "called Option::unwrap on a None value") ∧
    (handle_notification testCache testPlugin testDisp testCtx
       (HostNotification.NewBuffer [testInfo1])).isOk = true :=
  ⟨(new_buffer_without_pid_panics testCache testPlugin testCtx
      (Dispatcher.new []) [testInfo1]).1 rfl,
   (new_buffer_without_pid_panics testCache testPlugin testCtx
      testDisp [testInfo1]).2 rfl⟩

/-- C5: handling DidClose for a registered view invokes the did_close
hook exactly once, on the view as registered (so still queryable during
the hook), and only then removes it: the resulting registry is the prior
one minus that identifier, all other entries untouched. -/
theorem did_close_hook_before_removal
    (cacheI : CacheImpl C D) (pl : Plugin C D T V S) (ctx : RpcCtx)
    (d : Dispatcher C S) (view_id : ViewIdentifier) (v : View C)
    (h : mapLookup d.views view_id = some v)
    (hnd : (d.views.map Prod.fst).Nodup) :
    handle_notification cacheI pl d ctx (HostNotification.DidClose view_id) =
      Outcome.ok ({ views := mapErase d.views view_id, pid := d.pid,
                    plugin := pl.did_close d.plugin v }, []) ∧
    mapLookup (mapErase d.views view_id) view_id = none ∧
    (∀ k, k ≠ view_id →
       mapLookup (mapErase d.views view_id) k = mapLookup d.views k) := by
  refine ⟨?_, mapLookup_mapErase_self d.views view_id hnd,
          fun k hk => mapLookup_mapErase_ne d.views view_id k (Ne.symm hk)⟩
  simp [handle_notification, do_close, h]

/-- Witness for C5 closing the registered view 1 of testDisp. -/
theorem did_close_hook_before_removal_witness :
    (mapLookup testDisp.views 1 = some testView1 ∧
     (testDisp.views.map Prod.fst).Nodup) ∧
    (handle_notification testCache testPlugin testDisp testCtx
       (HostNotification.DidClose 1) =
       Outcome.ok ({ views := mapErase testDisp.views 1, pid := testDisp.pid,
                     plugin := testPlugin.did_close testDisp.plugin testView1 }, []) ∧
     mapLookup (mapErase testDisp.views 1) 1 = none ∧
     (∀ k, k ≠ 1 →
        mapLookup (mapErase testDisp.views 1) k = mapLookup testDisp.views k)) :=
  ⟨⟨rfl, by decide⟩,
   did_close_hook_before_removal testCache testPlugin testCtx testDisp 1
     testView1 rfl (by decide)⟩

/-- C6: DidSave, ConfigChanged, DidClose and an Idle callback addressing
an unregistered view each complete normally with the dispatcher state
unchanged, invoke no plugin hook, return no error, and emit exactly the
one missing-view diagnostic. -/
theorem missing_view_notifications_diagnostic_only
    (cacheI : CacheImpl C D) (pl : Plugin C D T V S) (ctx : RpcCtx)
    (d : Dispatcher C S) (view_id : ViewIdentifier) (path : FsPath) (changes : T)
    (h : mapLookup d.views view_id = none) :
    handle_notification cacheI pl d ctx (HostNotification.DidSave view_id path) =
      Outcome.ok (d, [⟨d.pid, view_id, "did_save"⟩]) ∧
    handle_notification cacheI pl d ctx
        (HostNotification.ConfigChanged view_id changes) =
      Outcome.ok (d, [⟨d.pid, view_id, "config_changed"⟩]) ∧
    handle_notification cacheI pl d ctx (HostNotification.DidClose view_id) =
      Outcome.ok (d, [⟨d.pid, view_id, "close"⟩]) ∧
    handle_idle pl d view_id = (d, [⟨d.pid, view_id, "idle"⟩]) := by
  refine ⟨?_, ?_, ?_, ?_⟩ <;>
    simp [handle_notification, do_did_save, do_config_changed, do_close,
          handle_idle, h]

/-- Witness for C6 addressing the unregistered view 9 of testDisp. -/
theorem missing_view_notifications_diagnostic_only_witness :
    mapLookup testDisp.views 9 = none ∧
    (handle_notification testCache testPlugin testDisp testCtx
       (HostNotification.DidSave 9 "a.txt") =
       Outcome.ok (testDisp, [⟨testDisp.pid, 9, "did_save"⟩]) ∧
     handle_notification testCache testPlugin testDisp testCtx
       (HostNotification.ConfigChanged 9 0) =
       Outcome.ok (testDisp, [⟨testDisp.pid, 9, "config_changed"⟩]) ∧
     handle_notification testCache testPlugin testDisp testCtx
       (HostNotification.DidClose 9) =
       Outcome.ok (testDisp, [⟨testDisp.pid, 9, "close"⟩]) ∧
     handle_idle testPlugin testDisp 9 = (testDisp, [⟨testDisp.pid, 9, "idle"⟩])) :=
  ⟨rfl,
   missing_view_notifications_diagnostic_only testCache testPlugin testCtx
     testDisp 9 "a.txt" 0 rfl⟩

/-- C8: handling DidSave for a registered view invokes the did_save hook
with the registered view, whose path field still holds its previous
value, and the path; only afterwards does the dispatcher set the path
field of the hook's resulting view to the saved path, touching no other
field itself; every other registry entry is unchanged. -/
theorem did_save_hook_then_sets_path
    (cacheI : CacheImpl C D) (pl : Plugin C D T V S) (ctx : RpcCtx)
    (d : Dispatcher C S) (view_id : ViewIdentifier) (path : FsPath) (v : View C)
    (h : mapLookup d.views view_id = some v) :
    handle_notification cacheI pl d ctx (HostNotification.DidSave view_id path) =
      (let r := pl.did_save d.plugin v path
       Outcome.ok
         ({ views := mapInsert d.views view_id { r.2 with path := some path },
            pid := d.pid, plugin := r.1 }, [])) ∧
    (∀ k, k ≠ view_id →
       mapLookup (mapInsert d.views view_id
         { (pl.did_save d.plugin v path).2 with path := some path }) k =
       mapLookup d.views k) := by
  constructor
  · simp [handle_notification, do_did_save, h]
  · intro k hk
    exact mapLookup_mapInsert_ne d.views view_id k _ (Ne.symm hk)

/-- Witness for C8 saving the registered view 1 of testDisp. -/
theorem did_save_hook_then_sets_path_witness :
    mapLookup testDisp.views 1 = some testView1 ∧
    (handle_notification testCache testPlugin testDisp testCtx
       (HostNotification.DidSave 1 "a.txt") =
       (let r := testPlugin.did_save testDisp.plugin testView1 "a.txt"
        Outcome.ok
          ({ views := mapInsert testDisp.views 1 { r.2 with path := some "a.txt" },
             pid := testDisp.pid, plugin := r.1 }, [])) ∧
     (∀ k, k ≠ 1 →
        mapLookup (mapInsert testDisp.views 1
          { (testPlugin.did_save testDisp.plugin testView1 "a.txt").2 with
            path := some "a.txt" }) k =
        mapLookup testDisp.views k)) :=
  ⟨rfl,
   did_save_hook_then_sets_path testCache testPlugin testCtx testDisp 1
     "a.txt" testView1 rfl⟩

/-- When the new_view hook preserves view identity, one new-buffer step
makes exactly the identifier of the processed info present, keeping the
others. -/
theorem lookup_newBufferBody_isSome (cacheI : CacheImpl C D)
    (pl : Plugin C D T V S) (ctx : RpcCtx) (p : PluginPid)
    (hid : ∀ s v, ((pl.new_view s v).2).view_id = v.view_id)
    (d : Dispatcher C S) (b : PluginBufferInfo) (id : ViewIdentifier) :
    (mapLookup (newBufferBody cacheI pl ctx p d b).views id).isSome = true ↔
      id = b.view_id ∨ (mapLookup d.views id).isSome = true := by
  have hkey : ((pl.new_view d.plugin (View.new cacheI ctx.peer p b)).2).view_id
      = b.view_id := by
    rw [hid]
    rfl
  have hv : (newBufferBody cacheI pl ctx p d b).views =
      mapInsert d.views
        ((pl.new_view d.plugin (View.new cacheI ctx.peer p b)).2).view_id
        ((pl.new_view d.plugin (View.new cacheI ctx.peer p b)).2) := rfl
  rw [hv, mapLookup_isSome_iff_mem, mem_keys_mapInsert, hkey,
      ← mapLookup_isSome_iff_mem]

/-- The identifiers present after the new-buffer loop are the prior keys
plus the identifiers of the processed infos. -/
theorem lookup_foldl_newBufferBody_isSome (cacheI : CacheImpl C D)
    (pl : Plugin C D T V S) (ctx : RpcCtx) (p : PluginPid)
    (hid : ∀ s v, ((pl.new_view s v).2).view_id = v.view_id) :
    ∀ (bs : List PluginBufferInfo) (d : Dispatcher C S) (id : ViewIdentifier),
      (mapLookup (bs.foldl (newBufferBody cacheI pl ctx p) d).views id).isSome
          = true ↔
        (mapLookup d.views id).isSome = true ∨
          id ∈ bs.map PluginBufferInfo.view_id
  | [], d, id => by simp
  | b :: bs, d, id => by
      rw [List.foldl_cons,
          lookup_foldl_newBufferBody_isSome cacheI pl ctx p hid bs,
          lookup_newBufferBody_isSome cacheI pl ctx p hid d b id]
      simp only [List.map_cons, List.mem_cons]
      tauto

/-- The new-buffer loop keeps the registry keys distinct. -/
theorem nodup_foldl_newBufferBody (cacheI : CacheImpl C D)
    (pl : Plugin C D T V S) (ctx : RpcCtx) (p : PluginPid) :
    ∀ (bs : List PluginBufferInfo) (d : Dispatcher C S),
      (d.views.map Prod.fst).Nodup →
      (((bs.foldl (newBufferBody cacheI pl ctx p) d).views).map Prod.fst).Nodup
  | [], _, h => h
  | b :: bs, d, h => by
      rw [List.foldl_cons]
      exact nodup_foldl_newBufferBody cacheI pl ctx p bs _
        (nodup_keys_mapInsert d.views _ _ h)

/-- Running a sequence of NewBuffer messages on a dispatcher with a
recorded pid folds the construct-hook-insert body over all infos in
order. -/
theorem runMsgs_newBuffers (cacheI : CacheImpl C D) (pl : Plugin C D T V S)
    (ctx : RpcCtx) (p : PluginPid) :
    ∀ (bss : List (List PluginBufferInfo)) (d : Dispatcher C S),
      d.pid = some p →
      runMsgs cacheI pl ctx d
        (bss.map (fun bs => Msg.notif (HostNotification.NewBuffer bs))) =
        Outcome.ok (bss.flatten.foldl (newBufferBody cacheI pl ctx p) d)
  | [], d, hp => by simp [runMsgs]
  | bs :: bss, d, hp => by
      have hstep :
          stepMsg cacheI pl ctx d (Msg.notif (HostNotification.NewBuffer bs)) =
            Outcome.ok (bs.foldl (newBufferBody cacheI pl ctx p) d, []) := by
        simp [stepMsg, handle_notification, do_new_buffer, hp]
      simp only [List.map_cons, runMsgs, hstep]
      rw [runMsgs_newBuffers cacheI pl ctx p bss _
            (by rw [pid_foldl_newBufferBody]; exact hp)]
      rw [List.flatten, List.foldl_append]

/-- C3: after a successful Initialize left the dispatcher with a recorded
pid and an otherwise empty registry, handling any sequence of NewBuffer
messages carrying buffer infos b1..bn leaves the registry holding exactly
the set of identifiers of b1..bn, with one entry per identifier (a later
info with the same identifier as an earlier one overwrites the earlier
entry); each info is processed by constructing a View from the peer
handle, pid and info, invoking the new_view hook on it, and inserting the
result into the registry keyed by its identifier. -/
theorem new_buffer_sequence_registry
    (cacheI : CacheImpl C D) (pl : Plugin C D T V S) (ctx : RpcCtx)
    (hid : ∀ s v, ((pl.new_view s v).2).view_id = v.view_id)
    (d : Dispatcher C S) (p : PluginPid)
    (hpid : d.pid = some p) (hempty : d.views = [])
    (bss : List (List PluginBufferInfo)) :
    runMsgs cacheI pl ctx d
      (bss.map (fun bs => Msg.notif (HostNotification.NewBuffer bs))) =
      Outcome.ok (bss.flatten.foldl (newBufferBody cacheI pl ctx p) d) ∧
    (∀ id,
       (mapLookup (bss.flatten.foldl (newBufferBody cacheI pl ctx p) d).views
           id).isSome = true ↔
         id ∈ bss.flatten.map PluginBufferInfo.view_id) ∧
    (((bss.flatten.foldl (newBufferBody cacheI pl ctx p) d).views).map
        Prod.fst).Nodup ∧
    (∀ (acc : Dispatcher C S) (b : PluginBufferInfo),
       newBufferBody cacheI pl ctx p acc b =
         { views := mapInsert acc.views
             ((pl.new_view acc.plugin (View.new cacheI ctx.peer p b)).2).view_id
             ((pl.new_view acc.plugin (View.new cacheI ctx.peer p b)).2),
           pid := acc.pid,
           plugin := (pl.new_view acc.plugin (View.new cacheI ctx.peer p b)).1 }) := by
  refine ⟨runMsgs_newBuffers cacheI pl ctx p bss d hpid, ?_, ?_, fun acc b => rfl⟩
  · intro id
    rw [lookup_foldl_newBufferBody_isSome cacheI pl ctx p hid bss.flatten d id]
    simp [hempty, mapLookup]
  · exact nodup_foldl_newBufferBody cacheI pl ctx p bss.flatten d (by simp [hempty])

/-- Witness for C3: two NewBuffer messages on a freshly initialized
dispatcher, the second one re-carrying identifier 1. -/
theorem new_buffer_sequence_registry_witness :
    ((⟨[], some 7, []⟩ : Dispatcher (Nat × Nat × Nat) (List String)).pid = some 7 ∧
     (⟨[], some 7, []⟩ : Dispatcher (Nat × Nat × Nat) (List String)).views = []) ∧
    (runMsgs testCache testPlugin testCtx ⟨[], some 7, []⟩
       ([[testInfo1], [testInfo2, testInfo1]].map
         (fun bs => Msg.notif (HostNotification.NewBuffer bs))) =
       Outcome.ok ([[testInfo1], [testInfo2, testInfo1]].flatten.foldl
         (newBufferBody testCache testPlugin testCtx 7) ⟨[], some 7, []⟩) ∧
     (∀ id,
        (mapLookup ([[testInfo1], [testInfo2, testInfo1]].flatten.foldl
            (newBufferBody testCache testPlugin testCtx 7)
            ⟨[], some 7, []⟩).views id).isSome = true ↔
          id ∈ [[testInfo1], [testInfo2, testInfo1]].flatten.map
            PluginBufferInfo.view_id) ∧
     ((([[testInfo1], [testInfo2, testInfo1]].flatten.foldl
         (newBufferBody testCache testPlugin testCtx 7)
         ⟨[], some 7, []⟩).views).map Prod.fst).Nodup ∧
     (∀ (acc : Dispatcher (Nat × Nat × Nat) (List String))
        (b : PluginBufferInfo),
        newBufferBody testCache testPlugin testCtx 7 acc b =
          { views := mapInsert acc.views
              ((testPlugin.new_view acc.plugin
                 (View.new testCache testCtx.peer 7 b)).2).view_id
              ((testPlugin.new_view acc.plugin
                 (View.new testCache testCtx.peer 7 b)).2),
            pid := acc.pid,
            plugin := (testPlugin.new_view acc.plugin
              (View.new testCache testCtx.peer 7 b)).1 })) :=
  ⟨⟨rfl, rfl⟩,
   new_buffer_sequence_registry testCache testPlugin testCtx (fun _ _ => rfl)
     ⟨[], some 7, []⟩ 7 rfl rfl [[testInfo1], [testInfo2, testInfo1]]⟩

/-- A lookup that succeeds forces the registry to be non-empty. -/
theorem views_ne_nil_of_mapLookup_some {α : Type}
    (l : List (ViewIdentifier × α)) (k : ViewIdentifier) (v : α)
    (h : mapLookup l k = some v) : l ≠ [] := by
  intro he
  rw [he] at h
  simp [mapLookup] at h

/-- A single dispatch step that completes normally preserves the
views-imply-pid invariant. -/
theorem stepMsg_preserves_DispInv (cacheI : CacheImpl C D)
    (pl : Plugin C D T V S) (ctx : RpcCtx) (d : Dispatcher C S) (m : Msg D T)
    (d2 : Dispatcher C S) (out : List Diag) (hinv : DispInv d)
    (h : stepMsg cacheI pl ctx d m = Outcome.ok (d2, out)) : DispInv d2 := by
  cases m with
  | notif n =>
      cases n with
      | Initialize p bs =>
          cases hp : d.pid with
          | some q =>
              simp [stepMsg, handle_notification, do_initialize, hp] at h
          | none =>
              simp [stepMsg, handle_notification, do_initialize,
                do_new_buffer, hp] at h
              obtain ⟨h1, _⟩ := h
              rw [← h1]
              intro _
              rw [pid_foldl_newBufferBody]
              rfl
      | DidSave view_id path =>
          cases hl : mapLookup d.views view_id with
          | none =>
              simp [stepMsg, handle_notification, do_did_save, hl] at h
              obtain ⟨h1, _⟩ := h
              rw [← h1]
              exact hinv
          | some v =>
              simp [stepMsg, handle_notification, do_did_save, hl] at h
              obtain ⟨h1, _⟩ := h
              rw [← h1]
              intro _
              exact hinv (views_ne_nil_of_mapLookup_some d.views view_id v hl)
      | ConfigChanged view_id changes =>
          cases hl : mapLookup d.views view_id with
          | none =>
              simp [stepMsg, handle_notification, do_config_changed, hl] at h
              obtain ⟨h1, _⟩ := h
              rw [← h1]
              exact hinv
          | some v =>
              simp [stepMsg, handle_notification, do_config_changed, hl] at h
              obtain ⟨h1, _⟩ := h
              rw [← h1]
              intro _
              exact hinv (views_ne_nil_of_mapLookup_some d.views view_id v hl)
      | NewBuffer bs =>
          cases hp : d.pid with
          | none =>
              simp [stepMsg, handle_notification, do_new_buffer, hp] at h
          | some p =>
              simp [stepMsg, handle_notification, do_new_buffer, hp] at h
              obtain ⟨h1, _⟩ := h
              rw [← h1]
              intro _
              rw [pid_foldl_newBufferBody, hp]
              rfl
      | DidClose view_id =>
          cases hl : mapLookup d.views view_id with
          | none =>
              simp [stepMsg, handle_notification, do_close, hl] at h
              obtain ⟨h1, _⟩ := h
              rw [← h1]
              exact hinv
          | some v =>
              simp [stepMsg, handle_notification, do_close, hl] at h
              obtain ⟨h1, _⟩ := h
              rw [← h1]
              intro _
              exact hinv (views_ne_nil_of_mapLookup_some d.views view_id v hl)
      | Shutdown =>
          simp [stepMsg, handle_notification, do_shutdown] at h
          obtain ⟨h1, _⟩ := h
          rw [← h1]
          exact hinv
      | TracingConfig enabled =>
          simp [stepMsg, handle_notification, do_tracing_config] at h
          obtain ⟨h1, _⟩ := h
          rw [← h1]
          exact hinv
      | Ping =>
          simp [stepMsg, handle_notification] at h
          obtain ⟨h1, _⟩ := h
          rw [← h1]
          exact hinv
  | req r =>
      cases r with
      | Update u =>
          cases hl : mapLookup d.views u.view_id with
          | none =>
              simp [stepMsg, handle_request, do_update, hl] at h
              obtain ⟨h1, _⟩ := h
              rw [← h1]
              exact hinv
          | some v =>
              simp [stepMsg, handle_request, do_update, hl] at h
              obtain ⟨h1, _⟩ := h
              rw [← h1]
              intro _
              exact hinv (views_ne_nil_of_mapLookup_some d.views u.view_id v hl)
      | CollectTrace =>
          simp [stepMsg, handle_request] at h
          obtain ⟨h1, _⟩ := h
          rw [← h1]
          exact hinv
  | idle token =>
      cases hl : mapLookup d.views token with
      | none =>
          simp [stepMsg, handle_idle, hl] at h
          obtain ⟨h1, _⟩ := h
          rw [← h1]
          exact hinv
      | some v =>
          simp [stepMsg, handle_idle, hl] at h
          obtain ⟨h1, _⟩ := h
          rw [← h1]
          intro _
          exact hinv (views_ne_nil_of_mapLookup_some d.views token v hl)

/-- Running any list of messages from a state satisfying the
views-imply-pid invariant lands in a state satisfying it again. -/
theorem runMsgs_preserves_DispInv (cacheI : CacheImpl C D)
    (pl : Plugin C D T V S) (ctx : RpcCtx) :
    ∀ (msgs : List (Msg D T)) (d d2 : Dispatcher C S), DispInv d →
      runMsgs cacheI pl ctx d msgs = Outcome.ok d2 → DispInv d2
  | [], d, d2, hinv, h => by
      obtain h1 := (by simpa [runMsgs] using h : d = d2)
      rw [← h1]
      exact hinv
  | m :: msgs, d, d2, hinv, h => by
      simp only [runMsgs] at h
      cases hs : stepMsg cacheI pl ctx d m with
      | panic s => rw [hs] at h; cases h
      | ok x =>
          rw [hs] at h
          exact runMsgs_preserves_DispInv cacheI pl ctx msgs x.1 d2
            (stepMsg_preserves_DispInv cacheI pl ctx d m x.1 x.2 hinv
              (by rw [hs]))
            h

/-- C10: in every dispatcher state reachable from Dispatcher::new by a
sequence of normally handled messages, a non-empty view registry implies
the pid is set. -/
theorem reachable_views_imply_pid
    (cacheI : CacheImpl C D) (pl : Plugin C D T V S) (ctx : RpcCtx) (s0 : S)
    (msgs : List (Msg D T)) (d2 : Dispatcher C S)
    (h : runMsgs cacheI pl ctx (Dispatcher.new s0) msgs = Outcome.ok d2) :
    d2.views ≠ [] → d2.pid.isSome = true :=
  runMsgs_preserves_DispInv cacheI pl ctx msgs (Dispatcher.new s0) d2
    (fun hne => absurd rfl hne) h

/-- Witness for C10: the state reached by one Initialize message has a
non-empty registry and a set pid. -/
theorem reachable_views_imply_pid_witness :
    runMsgs testCache testPlugin testCtx (Dispatcher.new [])
      [Msg.notif (HostNotification.Initialize 7 [testInfo1])] =
      Outcome.ok dWitness ∧
    (dWitness.views ≠ [] → dWitness.pid.isSome = true) :=
  ⟨rfl,
   reachable_views_imply_pid testCache testPlugin testCtx []
     [Msg.notif (HostNotification.Initialize 7 [testInfo1])] dWitness rfl⟩
